import Mathlib

/-!
Verification of the multi-address place-recommendation pipeline of the
`hackerton` repository (NestJS, TypeScript).  The definitions below are a
shallow embedding of the pure logic of
`src/modules/location/services/location.service.ts` and
`src/modules/location/services/places.service.ts`:

* JavaScript numbers are modelled as `ℚ` (exact rational arithmetic),
  integer-valued quantities as `ℤ`/`ℕ`;
* `Math.round x` is `⌊x + 1/2⌋`, `Math.floor` of an integer quotient is
  `Int.fdiv`, both matching the JS semantics on the ranges involved;
* methods that `throw` are modelled with `Except`;
* the external providers (Kakao/Naver geocoding, the Google transit matrix,
  the Bedrock scoring oracle, `JSON.parse` on the oracle's reply and the
  `Math.random()` stream used by the transit fallback) are parameters of the
  embedded functions, so that theorems can quantify over their behaviour;
* the trigonometric haversine distance `calculateDistance` (floating-point
  `sin`/`cos`/`atan2`) is kept as an explicit function parameter wherever it
  is consumed; the only fact about it that any claim needs is that the
  distance from a point to itself is below the 100 m merge threshold, which
  holds for the source's formula (it returns exactly 0 there).
-/

namespace Hackerton

/-- Coordinate value `{lat, lng}` (`CoordinateDto`). -/
structure CoordinateDto where
  lat : ℚ
  lng : ℚ
deriving DecidableEq, Repr

/-- JavaScript `Math.round`: round half toward positive infinity. -/
def mathRound (q : ℚ) : ℤ := ⌊q + 1/2⌋

/-- LocationService.calculateCenterPoint (location.service.ts, lines 212-232):
empty input throws a `BusinessLogicException`, a single coordinate is returned
unchanged, otherwise the arithmetic mean of the latitudes and of the
longitudes is taken independently. -/
def calculateCenterPoint : List CoordinateDto → Except String CoordinateDto
  | [] => Except.error "No coordinates provided for center calculation"
  | [c] => Except.ok c
  | coordinates@(_ :: _ :: _) =>
      let totalLat := (coordinates.map (fun c => c.lat)).sum
      let totalLng := (coordinates.map (fun c => c.lng)).sum
      Except.ok
        { lat := totalLat / (coordinates.length : ℚ)
          lng := totalLng / (coordinates.length : ℚ) }

/-!
PlacesService.getEditDistance (places.service.ts, lines 980-1005) fills a
`(str2.length+1) × (str1.length+1)` dynamic-programming table row by row:
`matrix[0][i] = i`, `matrix[j][0] = j`, and
`matrix[j][i] = min(matrix[j][i-1] + 1, matrix[j-1][i] + 1,
                   matrix[j-1][i-1] + indicator)`.
The embedding keeps one row at a time: `levRow` computes the cells `i ≥ 1` of
row `j` from row `j-1` (`pDiag :: pRest`, starting at column `i-1`) and the
cell to the left (`left`), and `dpStep` prepends the first cell
`matrix[j][0] = j = matrix[j-1][0] + 1`.
-/

/-- One row of the edit-distance table, cells `1..str1.length`.  The three
arguments of the inner `min` are, in source order, deletion
(`matrix[j][i-1] + 1`), insertion (`matrix[j-1][i] + 1`) and substitution
(`matrix[j-1][i-1] + indicator`). -/
def levRow (c2 : Char) : List Char → List ℕ → ℕ → List ℕ
  | c1 :: cs, pDiag :: pRest, left =>
      let pTop := pRest.headD 0
      let cell := min (min (left + 1) (pTop + 1))
        (pDiag + (if c1 = c2 then 0 else 1))
      cell :: levRow c2 cs pRest cell
  | _, _, _ => []

/-- Advance the table by one character of `str2`: new row `j` from row
`j-1`. -/
def dpStep (s1 : List Char) (prev : List ℕ) (c2 : Char) : List ℕ :=
  match prev with
  | [] => []
  | p0 :: _ => (p0 + 1) :: levRow c2 s1 prev (p0 + 1)

/-- PlacesService.getEditDistance on character lists: run the table over all
of `str2` starting from row 0 = `[0, 1, ..., str1.length]` and read the
bottom-right cell `matrix[str2.length][str1.length]`. -/
def getEditDistanceL (s1 s2 : List Char) : ℕ :=
  (s2.foldl (dpStep s1) (List.range (s1.length + 1))).getLastD 0

/-- PlacesService.getEditDistance (places.service.ts, lines 980-1005). -/
def getEditDistance (str1 str2 : String) : ℕ :=
  getEditDistanceL str1.toList str2.toList

/-- Classic Levenshtein distance with unit insert/delete/substitute costs,
the reference definition named by the specification. -/
def levenshtein : List Char → List Char → ℕ
  | [], ys => ys.length
  | x :: xs, [] => (x :: xs).length
  | x :: xs, y :: ys =>
      min (min (levenshtein xs (y :: ys) + 1) (levenshtein (x :: xs) ys + 1))
        (levenshtein xs ys + (if x = y then 0 else 1))
termination_by xs ys => xs.length + ys.length
decreasing_by all_goals (simp only [List.length_cons]; omega)

/-- PlacesService.calculateSimilarity (places.service.ts, lines 967-975):
orders the two strings by length, returns 1.0 when the longer is empty, else
`(longer.length - editDistance(longer, shorter)) / longer.length`.
The source's literal `0.7` threshold appears below as `7/10`. -/
def calculateSimilarity (str1 str2 : String) : ℚ :=
  let longer := if str1.length > str2.length then str1 else str2
  let shorter := if str1.length > str2.length then str2 else str1
  if longer.length = 0 then 1
  else ((longer.length : ℚ) - (getEditDistance longer shorter : ℚ)) /
    (longer.length : ℚ)

/-- One reply cell of GoogleMapsService.calculateTransitTime. -/
structure TransitApiResult where
  durationText : String
  distanceText : String
  durationSeconds : ℤ
  distanceMeters : ℤ
deriving DecidableEq, Repr

/-- One transit leg of `transportationAccessibility.fromAddresses`
(places.service.ts, lines 754-780). -/
structure TransitLeg where
  origin : String
  transitTime : String
  transitDistance : String
  transitMode : String
  durationSeconds : ℤ
  distanceMeters : ℚ
deriving DecidableEq, Repr

/-- The per-place `transportationAccessibility` record
(places.service.ts, lines 795-804). -/
structure TransitInfo where
  averageTransitTime : String
  accessibilityScore : ℤ
  fromAddresses : List TransitLeg
  calculationMethod : String
deriving DecidableEq, Repr

/-- Leg construction for one (origin, place) pair (places.service.ts, lines
754-780).  When the provider produced a positive duration the real data is
echoed; otherwise the fallback leg uses
`fallbackTime = Math.round(15 + Math.random() * 20)` minutes — the
`Math.random()` draw is the explicit parameter `rand` — and
`fallbackDistance = Math.round(calculateDistance(origin, place) / 100) / 10`
kilometres. -/
def buildTransitLeg (calculateDistance : CoordinateDto → CoordinateDto → ℚ)
    (origin : CoordinateDto) (originalAddress : String)
    (place : CoordinateDto) (result : Option TransitApiResult)
    (rand : ℚ) : TransitLeg :=
  match result with
  | some r =>
      if 0 < r.durationSeconds then
        { origin := originalAddress
          transitTime := r.durationText
          transitDistance := r.distanceText
          transitMode := "대중교통"
          durationSeconds := r.durationSeconds
          distanceMeters := (r.distanceMeters : ℚ) }
      else
        { origin := originalAddress
          transitTime := toString (mathRound (15 + rand * 20)) ++ "분"
          transitDistance :=
            toString ((mathRound (calculateDistance origin place / 100) : ℚ) / 10)
              ++ "km"
          transitMode := "대중교통 (추정)"
          durationSeconds := mathRound (15 + rand * 20) * 60
          distanceMeters :=
            (mathRound (calculateDistance origin place / 100) : ℚ) / 10 * 1000 }
  | none =>
      { origin := originalAddress
        transitTime := toString (mathRound (15 + rand * 20)) ++ "분"
        transitDistance :=
          toString ((mathRound (calculateDistance origin place / 100) : ℚ) / 10)
            ++ "km"
        transitMode := "대중교통 (추정)"
        durationSeconds := mathRound (15 + rand * 20) * 60
        distanceMeters :=
          (mathRound (calculateDistance origin place / 100) : ℚ) / 10 * 1000 }

/-- Aggregation step of places.service.ts, lines 782-786:
`averageMinutes = Math.round((sum / count) / 60)`. -/
def averageTransitMinutes (durs : List ℤ) : ℤ :=
  mathRound ((durs.map (fun d => (d : ℚ))).sum / (durs.length : ℚ) / 60)

/-- Scoring step of places.service.ts, lines 788-793:
`Math.min(10, Math.max(1, 10 - Math.floor((averageMinutes - 15) / 5)))`.
`Int.fdiv` is floor division, matching `Math.floor` on the quotient. -/
def accessibilityScoreOfMinutes (averageMinutes : ℤ) : ℤ :=
  min 10 (max 1 (10 - Int.fdiv (averageMinutes - 15) 5))

/-- PlacesService.calculateTransitToPlace (places.service.ts, lines 724-818),
after the provider fan-out has settled: `transitResults` holds one
`Option TransitApiResult` per origin (`none` when that call threw) and
`rands` the corresponding `Math.random()` draws consumed by failed cells. -/
def calculateTransitToPlace
    (calculateDistance : CoordinateDto → CoordinateDto → ℚ)
    (origins : List CoordinateDto) (originalAddresses : List String)
    (place : CoordinateDto)
    (transitResults : List (Option TransitApiResult))
    (rands : List ℚ) : TransitInfo :=
  let transitTimes :=
    ((origins.zip originalAddresses).zip (transitResults.zip rands)).map
      (fun x => buildTransitLeg calculateDistance x.1.1 x.1.2 place x.2.1 x.2.2)
  let averageMinutes :=
    averageTransitMinutes (transitTimes.map (fun t => t.durationSeconds))
  { averageTransitTime := toString averageMinutes ++ "분"
    accessibilityScore := accessibilityScoreOfMinutes averageMinutes
    fromAddresses := transitTimes
    calculationMethod :=
      if transitResults.any (fun r =>
          match r with
          | some v => decide (0 < v.durationSeconds)
          | none => false) then
        "google_maps_api"
      else "estimated" }

/-- Candidate place record (`PlaceDto`), restricted to the fields the
embedded operations read or write. -/
structure PlaceDto where
  name : String
  coordinates : CoordinateDto
  transportationAccessibility : Option TransitInfo
  aiRecommendationScore : Option ℚ
  aiAnalysis : Option String
deriving DecidableEq, Repr

/-- Duplicate test of PlacesService.mergePlaceSources (places.service.ts,
lines 945-953): name similarity strictly above 0.7 AND haversine distance
strictly below 100 m. -/
def isPlaceMatch (calculateDistance : CoordinateDto → CoordinateDto → ℚ)
    (existing naverPlace : PlaceDto) : Bool :=
  decide ((7 : ℚ)/10 < calculateSimilarity existing.name naverPlace.name) &&
    decide (calculateDistance existing.coordinates naverPlace.coordinates < 100)

/-- PlacesService.mergePlaceSources (places.service.ts, lines 937-962):
start from all of `kakaoPlaces`, then append each Naver place only when no
place already accumulated matches it. -/
def mergePlaceSources (calculateDistance : CoordinateDto → CoordinateDto → ℚ)
    (kakaoPlaces naverPlaces : List PlaceDto) : List PlaceDto :=
  naverPlaces.foldl
    (fun allPlaces naverPlace =>
      if (allPlaces.any (fun existing =>
          isPlaceMatch calculateDistance existing naverPlace)) = true then
        allPlaces
      else allPlaces ++ [naverPlace])
    kakaoPlaces

/-- One raw entry of the JSON array extracted from the oracle reply; each
field is optional because `JSON.parse` gives untyped data. -/
structure AiRecommendationRaw where
  placeIndex : Option ℤ
  aiRecommendationScore : Option ℚ
  reason : Option String
deriving DecidableEq, Repr

/-- A recommendation entry that survived the `typeof` filter of
parseAIRecommendations. -/
structure AiRecommendation where
  placeIndex : ℤ
  aiRecommendationScore : Option ℚ
  reason : String
deriving DecidableEq, Repr

/-- Sort comparator of parseAIRecommendations (places.service.ts, lines
573-576): descending by `aiRecommendationScore || 0`; JS sort is stable,
modelled by the stable `insertionSort`. -/
def aiScoreDescOrder (a b : AiRecommendation) : Prop :=
  b.aiRecommendationScore.getD 0 ≤ a.aiRecommendationScore.getD 0

instance : DecidableRel aiScoreDescOrder := fun _ _ =>
  inferInstanceAs (Decidable (_ ≤ _))

/-- PlacesService.parseAIRecommendations (places.service.ts, lines 553-584).
`parsedJson` is the combined effect of the regex array extraction and
`JSON.parse` (JS built-ins): `none` when no well-formed JSON array substring
exists — in that case the surrounding catch returns the empty list.  Valid
entries (numeric `placeIndex`, string `reason`) are kept and sorted by
descending score. -/
def parseAIRecommendations
    (parsedJson : Option (List AiRecommendationRaw)) : List AiRecommendation :=
  match parsedJson with
  | none => []
  | some recommendations =>
      List.insertionSort aiScoreDescOrder
        (recommendations.filterMap (fun r =>
          match r.placeIndex, r.reason with
          | some i, some reason =>
              some { placeIndex := i
                     aiRecommendationScore := r.aiRecommendationScore
                     reason := reason }
          | _, _ => none))

/-- The fallback ranking key (places.service.ts, lines 377-378):
`place.transportationAccessibility?.accessibilityScore || 5` — absent transit
data or a falsy (zero) score both read as 5. -/
def effectiveAccessibilityScore (p : PlaceDto) : ℚ :=
  match p.transportationAccessibility with
  | none => 5
  | some t => if t.accessibilityScore = 0 then 5 else (t.accessibilityScore : ℚ)

/-- Fallback comparator of places.service.ts, lines 376-380: descending by
effective accessibility score (JS `sort((a, b) => scoreB - scoreA)`). -/
def accessDescOrder (a b : PlaceDto) : Prop :=
  effectiveAccessibilityScore b ≤ effectiveAccessibilityScore a

instance : DecidableRel accessDescOrder := fun _ _ =>
  inferInstanceAs (Decidable (_ ≤ _))

/-- PlacesService.generateAIRecommendations (places.service.ts, lines
212-383), with the Bedrock call abstracted as `oracle` (`Except.error` when
`generateResponse` throws) and the JSON built-ins as `jsonExtract`.  The
value is the pair (returned recommendation list, final state of the caller's
`places` array): the fallback path runs `places.sort(...)`, which in
JavaScript reorders the caller's array in place, so the second component is
the sorted array there and the untouched input everywhere else. -/
def generateAIRecommendations
    (jsonExtract : String → Option (List AiRecommendationRaw))
    (places : List PlaceDto) (maxResults : ℕ)
    (oracle : Except Unit String) : List PlaceDto × List PlaceDto :=
  if places.length = 0 then ([], places)
  else
    match oracle with
    | Except.ok aiResponse =>
        let recommendations := parseAIRecommendations (jsonExtract aiResponse)
        let recommendedPlaces :=
          ((recommendations.filter (fun r =>
              decide (0 < r.placeIndex) &&
                decide (r.placeIndex ≤ (places.length : ℤ)))).filterMap
            (fun r =>
              (places.get? (r.placeIndex - 1).toNat).map
                (fun pl =>
                  { pl with
                    aiRecommendationScore := r.aiRecommendationScore
                    aiAnalysis := some r.reason }))).take maxResults
        (recommendedPlaces, places)
    | Except.error _ =>
        let sorted := List.insertionSort accessDescOrder places
        (sorted.take maxResults, sorted)

/-- Geocoding result (`GeocodingResultDto`). -/
structure GeocodingResultDto where
  originalAddress : String
  formattedAddress : String
  coordinates : CoordinateDto
  accuracy : String
deriving DecidableEq, Repr

/-- Per-address body of LocationService.geocodeAddresses (location.service.ts,
lines 181-203): try Kakao, on any failure try Naver, and when both fail throw
`GEOCODING_ALL_FAILED` for that address.  The two providers are parameters
mapping an address to a result or a failure. -/
def geocodeOneAddress
    (geocodeAddressKakao geocodeAddressNaver :
      String → Except Unit GeocodingResultDto)
    (address : String) : Except String GeocodingResultDto :=
  match geocodeAddressKakao address with
  | Except.ok result => Except.ok result
  | Except.error _ =>
      match geocodeAddressNaver address with
      | Except.ok result => Except.ok result
      | Except.error _ =>
          Except.error ("Unable to geocode address: " ++ address)

/-- LocationService.geocodeAddresses (location.service.ts, lines 178-207):
sequential loop over the addresses, accumulating results in order; the first
address for which both providers fail throws immediately. -/
def geocodeAddresses
    (geocodeAddressKakao geocodeAddressNaver :
      String → Except Unit GeocodingResultDto) :
    List String → Except String (List GeocodingResultDto)
  | [] => Except.ok []
  | address :: rest =>
      match geocodeOneAddress geocodeAddressKakao geocodeAddressNaver address with
      | Except.ok result =>
          match geocodeAddresses geocodeAddressKakao geocodeAddressNaver rest with
          | Except.ok results => Except.ok (result :: results)
          | Except.error e => Except.error e
      | Except.error e => Except.error e

/-! ### Levenshtein helper lemmas -/

theorem levenshtein_nil_left (ys : List Char) : levenshtein [] ys = ys.length := by
  cases ys <;> simp [levenshtein]

theorem levenshtein_nil_right (xs : List Char) : levenshtein xs [] = xs.length := by
  cases xs <;> simp [levenshtein]

theorem levenshtein_cons_cons (x y : Char) (xs ys : List Char) :
    levenshtein (x :: xs) (y :: ys) =
      min (min (levenshtein xs (y :: ys) + 1) (levenshtein (x :: xs) ys + 1))
        (levenshtein xs ys + (if x = y then 0 else 1)) := by
  simp [levenshtein]

theorem levenshtein_append_singleton (x y : Char) :
    ∀ (n : ℕ) (xs ys : List Char), xs.length + ys.length ≤ n →
      levenshtein (xs ++ [x]) (ys ++ [y]) =
        min (min (levenshtein xs (ys ++ [y]) + 1)
            (levenshtein (xs ++ [x]) ys + 1))
          (levenshtein xs ys + (if x = y then 0 else 1)) := by
  intro n
  induction n with
  | zero =>
      intro xs ys h
      have hx : xs = [] := by cases xs <;> simp_all
      have hy : ys = [] := by cases ys <;> simp_all
      subst hx; subst hy
      simp only [List.nil_append]
      rw [levenshtein_cons_cons]
  | succ n ih =>
      intro xs ys h
      cases xs with
      | nil =>
          cases ys with
          | nil =>
              simp only [List.nil_append]
              rw [levenshtein_cons_cons]
          | cons y0 ys' =>
              have h1 := ih [] ys' (by
                simp only [List.length_nil, List.length_cons] at h ⊢; omega)
              simp only [List.cons_append, List.nil_append] at h1 ⊢
              simp only [levenshtein_cons_cons]
              rw [h1]
              simp only [levenshtein_nil_left, levenshtein_nil_right,
                List.length_append, List.length_cons, List.length_nil]
              refine le_antisymm ?_ ?_ <;>
                (simp only [le_min_iff, min_le_iff, add_le_add_iff_right]
                 repeat' apply And.intro) <;>
                omega
      | cons x0 xs' =>
          cases ys with
          | nil =>
              have h2 := ih xs' [] (by
                simp only [List.length_nil, List.length_cons] at h ⊢; omega)
              simp only [List.cons_append, List.nil_append] at h2 ⊢
              simp only [levenshtein_cons_cons]
              rw [h2]
              simp only [levenshtein_nil_left, levenshtein_nil_right,
                List.length_append, List.length_cons, List.length_nil]
              refine le_antisymm ?_ ?_ <;>
                (simp only [le_min_iff, min_le_iff, add_le_add_iff_right]
                 repeat' apply And.intro) <;>
                omega
          | cons y0 ys' =>
              have h1 := ih xs' (y0 :: ys') (by
                simp only [List.length_cons] at h ⊢; omega)
              have h2 := ih (x0 :: xs') ys' (by
                simp only [List.length_cons] at h ⊢; omega)
              have h3 := ih xs' ys' (by
                simp only [List.length_cons] at h ⊢; omega)
              simp only [List.cons_append] at h1 h2 h3 ⊢
              simp only [levenshtein_cons_cons]
              rw [h1, h2, h3]
              refine le_antisymm ?_ ?_ <;>
                (simp only [le_min_iff, min_le_iff, add_le_add_iff_right]
                 repeat' apply And.intro) <;>
                omega

theorem levenshtein_comm : ∀ xs ys : List Char, levenshtein xs ys = levenshtein ys xs := by
  intro xs
  induction xs with
  | nil =>
      intro ys
      rw [levenshtein_nil_left, levenshtein_nil_right]
  | cons x xs ihx =>
      intro ys
      induction ys with
      | nil => rw [levenshtein_nil_left, levenshtein_nil_right]
      | cons y ys ihy =>
          rw [levenshtein_cons_cons, levenshtein_cons_cons]
          rw [ihx (y :: ys), ihy, ihx ys]
          have hxy : (if x = y then (0:ℕ) else 1) = (if y = x then 0 else 1) := by
            rcases eq_or_ne x y with hv | hv
            · subst hv; rfl
            · simp [hv, hv.symm]
          rw [hxy]
          omega

theorem levenshtein_le_max : ∀ xs ys : List Char,
    levenshtein xs ys ≤ max xs.length ys.length := by
  intro xs
  induction xs with
  | nil =>
      intro ys
      rw [levenshtein_nil_left]
      exact le_max_right _ _
  | cons x xs ihx =>
      intro ys
      cases ys with
      | nil =>
          rw [levenshtein_nil_right]
          exact le_max_left _ _
      | cons y ys =>
          rw [levenshtein_cons_cons]
          have h3 := ihx ys
          have hm := min_le_right
            (min (levenshtein xs (y :: ys) + 1) (levenshtein (x :: xs) ys + 1))
            (levenshtein xs ys + (if x = y then 0 else 1))
          have hind : (if x = y then (0:ℕ) else 1) ≤ 1 := by split <;> omega
          simp only [List.length_cons]
          omega

theorem levenshtein_self : ∀ xs : List Char, levenshtein xs xs = 0 := by
  intro xs
  induction xs with
  | nil => rw [levenshtein_nil_left]; rfl
  | cons x xs ih =>
      rw [levenshtein_cons_cons]
      simp [ih]

/-! ### The dynamic-programming table computes the Levenshtein distance.

`prefixRow t u cs` is row `j = t.length` of the table restricted to columns
`u.length .. u.length + cs.length` of the conceptual full first string
`u ++ cs`: its entries are `levenshtein (u ++ cs.take i) t` for
`i = 0 .. cs.length`. -/

def prefixRow (t : List Char) : List Char → List Char → List ℕ
  | u, [] => [levenshtein u t]
  | u, c :: cs => levenshtein u t :: prefixRow t (u ++ [c]) cs

theorem prefixRow_headD (t u : List Char) (cs : List Char) :
    (prefixRow t u cs).headD 0 = levenshtein u t := by
  cases cs <;> rfl

theorem prefixRow_head_tail (t u : List Char) (cs : List Char) :
    levenshtein u t :: (prefixRow t u cs).tail = prefixRow t u cs := by
  cases cs <;> rfl

theorem levRow_prefixRow (c2 : Char) :
    ∀ (cs u t : List Char),
      levRow c2 cs (prefixRow t u cs) (levenshtein u (t ++ [c2])) =
        (prefixRow (t ++ [c2]) u cs).tail := by
  intro cs
  induction cs with
  | nil => intro u t; rfl
  | cons c1 cs ih =>
      intro u t
      show levRow c2 (c1 :: cs)
          (levenshtein u t :: prefixRow t (u ++ [c1]) cs)
          (levenshtein u (t ++ [c2])) = _
      rw [levRow]
      have hcell :
          min (min (levenshtein u (t ++ [c2]) + 1)
              ((prefixRow t (u ++ [c1]) cs).headD 0 + 1))
            (levenshtein u t + (if c1 = c2 then 0 else 1)) =
            levenshtein (u ++ [c1]) (t ++ [c2]) := by
        rw [prefixRow_headD]
        rw [levenshtein_append_singleton c1 c2 (u.length + t.length) u t le_rfl]
      rw [hcell, ih (u ++ [c1]) t]
      show levenshtein (u ++ [c1]) (t ++ [c2]) ::
          (prefixRow (t ++ [c2]) (u ++ [c1]) cs).tail = _
      rw [prefixRow_head_tail]
      rfl

theorem dpStep_prefixRow (s1 t : List Char) (c2 : Char) :
    dpStep s1 (prefixRow t [] s1) c2 = prefixRow (t ++ [c2]) [] s1 := by
  cases s1 with
  | nil =>
      show dpStep [] [levenshtein [] t] c2 = [levenshtein [] (t ++ [c2])]
      rw [dpStep]
      simp [levRow, levenshtein_nil_left]
  | cons c cs =>
      show dpStep (c :: cs) (levenshtein [] t :: prefixRow t [c] cs) c2 = _
      rw [dpStep]
      have hleft : levenshtein [] t + 1 = levenshtein [] (t ++ [c2]) := by
        rw [levenshtein_nil_left, levenshtein_nil_left]
        simp
      rw [hleft]
      have hrow := levRow_prefixRow c2 (c :: cs) [] t
      have hprev : prefixRow t [] (c :: cs) =
          levenshtein [] t :: prefixRow t [c] cs := by
        show levenshtein [] t :: prefixRow t ([] ++ [c]) cs = _
        rfl
      rw [hprev] at hrow
      rw [hrow]
      have := prefixRow_head_tail (t ++ [c2]) [] (c :: cs)
      exact this

theorem foldl_dpStep_prefixRow (s1 : List Char) :
    ∀ (s2rem t : List Char),
      s2rem.foldl (dpStep s1) (prefixRow t [] s1) = prefixRow (t ++ s2rem) [] s1 := by
  intro s2rem
  induction s2rem with
  | nil => intro t; simp
  | cons c rest ih =>
      intro t
      show rest.foldl (dpStep s1) (dpStep s1 (prefixRow t [] s1) c) = _
      rw [dpStep_prefixRow, ih (t ++ [c])]
      simp

theorem prefixRow_nil_eq_range : ∀ (s1 u : List Char),
    prefixRow [] u s1 = (List.range (s1.length + 1)).map (fun i => u.length + i) := by
  intro s1
  induction s1 with
  | nil =>
      intro u
      simp [prefixRow, levenshtein_nil_right, List.range_succ]
  | cons c cs ih =>
      intro u
      show levenshtein u [] :: prefixRow [] (u ++ [c]) cs = _
      rw [levenshtein_nil_right, ih (u ++ [c])]
      simp only [List.length_cons]
      conv_rhs => rw [List.range_succ_eq_map, List.map_cons, List.map_map]
      rw [Nat.add_zero]
      congr 1
      apply List.map_congr_left
      intro a _
      simp only [Function.comp_apply, List.length_append, List.length_cons,
        List.length_nil]
      omega

theorem prefixRow_getLastD : ∀ (cs u t : List Char) (d : ℕ),
    (prefixRow t u cs).getLastD d = levenshtein (u ++ cs) t := by
  intro cs
  induction cs with
  | nil => intro u t d; simp [prefixRow]
  | cons c cs ih =>
      intro u t d
      show (levenshtein u t :: prefixRow t (u ++ [c]) cs).getLastD d = _
      rw [List.getLastD_cons, ih (u ++ [c]) t]
      simp

/-- The row-by-row dynamic program of getEditDistance computes exactly the
classic Levenshtein distance. -/
theorem getEditDistanceL_eq_levenshtein (s1 s2 : List Char) :
    getEditDistanceL s1 s2 = levenshtein s1 s2 := by
  unfold getEditDistanceL
  have hinit : List.range (s1.length + 1) = prefixRow [] [] s1 := by
    rw [prefixRow_nil_eq_range]
    simp
  rw [hinit, foldl_dpStep_prefixRow s1 s2 [], List.nil_append,
    prefixRow_getLastD s1 [] s2 0, List.nil_append]

theorem getEditDistance_eq_levenshtein (a b : String) :
    getEditDistance a b = levenshtein a.toList b.toList :=
  getEditDistanceL_eq_levenshtein a.toList b.toList

/-! ### String similarity -/

theorem toList_length (s : String) : s.toList.length = s.length := rfl

theorem calculateSimilarity_formula (a b : String) :
    calculateSimilarity a b =
      1 - (levenshtein a.toList b.toList : ℚ) / ((max a.length b.length : ℕ) : ℚ) := by
  simp only [calculateSimilarity]
  split_ifs with hab hz hz
  · -- longer = a, but a.length = 0 contradicts a.length > b.length
    omega
  · -- longer = a, a.length ≠ 0
    have hmax : max a.length b.length = a.length := by omega
    rw [hmax, getEditDistance_eq_levenshtein]
    have hne : ((a.length : ℕ) : ℚ) ≠ 0 := by
      exact_mod_cast hz
    field_simp
  · -- longer = b, b.length = 0: both strings empty
    have ha : a.length = 0 := by omega
    have hla : a.toList = [] := by
      have := toList_length a
      rw [ha] at this
      exact List.length_eq_zero.mp this
    have hlb : b.toList = [] := by
      have := toList_length b
      rw [hz] at this
      exact List.length_eq_zero.mp this
    rw [hla, hlb, ha, hz]
    norm_num [levenshtein_nil_left]
  · -- longer = b, b.length ≠ 0
    have hmax : max a.length b.length = b.length := by omega
    rw [hmax, getEditDistance_eq_levenshtein, levenshtein_comm b.toList a.toList]
    have hne : ((b.length : ℕ) : ℚ) ≠ 0 := by
      exact_mod_cast hz
    field_simp

theorem calculateSimilarity_mem_unit (a b : String) :
    0 ≤ calculateSimilarity a b ∧ calculateSimilarity a b ≤ 1 := by
  rw [calculateSimilarity_formula]
  by_cases hM : max a.length b.length = 0
  · rw [hM]
    norm_num
  · have hMpos : (0 : ℚ) < ((max a.length b.length : ℕ) : ℚ) := by
      exact_mod_cast Nat.pos_of_ne_zero hM
    have hle : levenshtein a.toList b.toList ≤ max a.length b.length := by
      have := levenshtein_le_max a.toList b.toList
      rwa [toList_length, toList_length] at this
    have h1 : (levenshtein a.toList b.toList : ℚ) /
        ((max a.length b.length : ℕ) : ℚ) ≤ 1 := by
      rw [div_le_one hMpos]
      exact_mod_cast hle
    have h2 : (0 : ℚ) ≤ (levenshtein a.toList b.toList : ℚ) /
        ((max a.length b.length : ℕ) : ℚ) := by positivity
    constructor <;> linarith

theorem calculateSimilarity_self (x : String) : calculateSimilarity x x = 1 := by
  rw [calculateSimilarity_formula, levenshtein_self]
  norm_num

/-- C8: for all strings `a`, `b`, `calculateSimilarity a b` equals
`1 - editDistance(a,b) / max(len a, len b)` and lies in `[0,1]`, where the
edit distance computed by the source's dynamic program is exactly the classic
Levenshtein distance with unit costs; the similarity of two empty strings is
1, `similarity(x,x) = 1`, and `editDistance("kitten","sitting") = 3`. -/
theorem c8_calculateSimilarity_spec :
    (∀ a b : String, calculateSimilarity a b =
        1 - (levenshtein a.toList b.toList : ℚ) / ((max a.length b.length : ℕ) : ℚ)) ∧
    (∀ a b : String, getEditDistance a b = levenshtein a.toList b.toList) ∧
    (∀ a b : String, 0 ≤ calculateSimilarity a b ∧ calculateSimilarity a b ≤ 1) ∧
    calculateSimilarity "" "" = 1 ∧
    (∀ x : String, calculateSimilarity x x = 1) ∧
    getEditDistance "kitten" "sitting" = 3 :=
  ⟨calculateSimilarity_formula, getEditDistance_eq_levenshtein,
    calculateSimilarity_mem_unit, calculateSimilarity_self "",
    calculateSimilarity_self, by decide⟩

/-- C10: `calculateSimilarity` is symmetric in its two arguments: ordering
the strings by length plus the symmetry of the Levenshtein distance makes the
duplicate-match relation of the merger symmetric in the two names. -/
theorem c10_calculateSimilarity_comm :
    ∀ a b : String, calculateSimilarity a b = calculateSimilarity b a := by
  intro a b
  rw [calculateSimilarity_formula, calculateSimilarity_formula,
    levenshtein_comm, Nat.max_comm]

/-- C6: `calculateCenterPoint` fails with the invalid-input error exactly on
the empty coordinate list; a singleton is returned unchanged; for two or more
coordinates it returns the arithmetic mean of the latitudes and of the
longitudes independently, whence `centroid [p] = p` and
`centroid [p, p] = p`. -/
theorem c6_calculateCenterPoint_spec :
    (∀ cs : List CoordinateDto,
        (∃ e, calculateCenterPoint cs = Except.error e) ↔ cs = []) ∧
    (∀ p : CoordinateDto, calculateCenterPoint [p] = Except.ok p) ∧
    (∀ c1 c2 rest, calculateCenterPoint (c1 :: c2 :: rest) = Except.ok
        { lat := ((c1 :: c2 :: rest).map (fun c => c.lat)).sum /
            (((c1 :: c2 :: rest).length : ℕ) : ℚ)
          lng := ((c1 :: c2 :: rest).map (fun c => c.lng)).sum /
            (((c1 :: c2 :: rest).length : ℕ) : ℚ) }) ∧
    (∀ p : CoordinateDto, calculateCenterPoint [p, p] = Except.ok p) := by
  refine ⟨?_, ?_, ?_, ?_⟩
  · intro cs
    constructor
    · rintro ⟨e, he⟩
      match cs with
      | [] => rfl
      | [c] => simp [calculateCenterPoint] at he
      | c1 :: c2 :: rest => simp [calculateCenterPoint] at he
    · rintro rfl
      exact ⟨"No coordinates provided for center calculation", rfl⟩
  · intro p
    rfl
  · intro c1 c2 rest
    rfl
  · intro p
    rcases p with ⟨la, ln⟩
    simp only [calculateCenterPoint, List.map_cons, List.map_nil, List.sum_cons,
      List.sum_nil, List.length_cons, List.length_nil, Except.ok.injEq,
      CoordinateDto.mk.injEq]
    push_cast
    constructor <;> ring

/-- Witness for C6: the empty coordinate list is rejected with an error. -/
theorem c6_calculateCenterPoint_spec_witness :
    ∃ e, calculateCenterPoint ([] : List CoordinateDto) = Except.error e :=
  (c6_calculateCenterPoint_spec.1 []).mpr rfl

/-! ### Accessibility scoring -/

theorem accessibilityScoreOfMinutes_bounds (m : ℤ) :
    1 ≤ accessibilityScoreOfMinutes m ∧ accessibilityScoreOfMinutes m ≤ 10 := by
  unfold accessibilityScoreOfMinutes
  constructor <;> omega

theorem accessibilityScoreOfMinutes_step (m : ℤ) :
    accessibilityScoreOfMinutes (m + 5) ≤ accessibilityScoreOfMinutes m := by
  unfold accessibilityScoreOfMinutes
  rw [Int.fdiv_eq_ediv _ (by norm_num), Int.fdiv_eq_ediv _ (by norm_num)]
  omega

/-- C1: the analyzer's accessibility score is
`clamp(10 - floor((averageMinutes - 15)/5), 1, 10)` where `averageMinutes` is
`round(mean(durationSeconds)/60)` over the computed legs (the code's
`min(10, max(1, ...))` is that clamp); consequently the score always lies in
`[1, 10]` and raising the average transit minutes by 5 never increases it. -/
theorem c1_accessibility_score_spec :
    (∀ (calculateDistance : CoordinateDto → CoordinateDto → ℚ)
        (origins : List CoordinateDto) (originalAddresses : List String)
        (place : CoordinateDto)
        (transitResults : List (Option TransitApiResult)) (rands : List ℚ),
      (calculateTransitToPlace calculateDistance origins originalAddresses
          place transitResults rands).accessibilityScore =
        min 10 (max 1 (10 - Int.fdiv (averageTransitMinutes
          (((calculateTransitToPlace calculateDistance origins originalAddresses
              place transitResults rands).fromAddresses).map
            (fun t => t.durationSeconds)) - 15) 5)) ∧
      (calculateTransitToPlace calculateDistance origins originalAddresses
          place transitResults rands).averageTransitTime =
        toString (averageTransitMinutes
          (((calculateTransitToPlace calculateDistance origins originalAddresses
              place transitResults rands).fromAddresses).map
            (fun t => t.durationSeconds))) ++ "분") ∧
    (∀ averageMinutes : ℤ,
        1 ≤ accessibilityScoreOfMinutes averageMinutes ∧
          accessibilityScoreOfMinutes averageMinutes ≤ 10) ∧
    (∀ (calculateDistance : CoordinateDto → CoordinateDto → ℚ)
        (origins : List CoordinateDto) (originalAddresses : List String)
        (place : CoordinateDto)
        (transitResults : List (Option TransitApiResult)) (rands : List ℚ),
      1 ≤ (calculateTransitToPlace calculateDistance origins originalAddresses
          place transitResults rands).accessibilityScore ∧
        (calculateTransitToPlace calculateDistance origins originalAddresses
          place transitResults rands).accessibilityScore ≤ 10) ∧
    (∀ averageMinutes : ℤ,
        accessibilityScoreOfMinutes (averageMinutes + 5) ≤
          accessibilityScoreOfMinutes averageMinutes) := by
  refine ⟨fun d os as p rs ras => ⟨rfl, rfl⟩, accessibilityScoreOfMinutes_bounds,
    fun d os as p rs ras => accessibilityScoreOfMinutes_bounds _,
    accessibilityScoreOfMinutes_step⟩

/-- C2 evidence: with the transit provider failing on the single
(origin, place) pair, the leg and the resulting score depend on the
`Math.random()` draw: draw 0 gives a 15-minute estimated leg
(900 s, score 10) while draw 1/2 gives a 25-minute leg (1500 s, score 8), so
two runs on identical inputs need not agree — the randomness the spec
requires to be replaced by a deterministic estimate. -/
theorem c2_estimated_leg_nondeterminism :
    ((calculateTransitToPlace (fun _ _ => 5000) [⟨37.5, 127.0⟩] ["A"]
        ⟨37.56, 126.97⟩ [none] [0]).fromAddresses.map
          (fun t => t.durationSeconds) = [900] ∧
      (calculateTransitToPlace (fun _ _ => 5000) [⟨37.5, 127.0⟩] ["A"]
        ⟨37.56, 126.97⟩ [none] [1/2]).fromAddresses.map
          (fun t => t.durationSeconds) = [1500]) ∧
    (calculateTransitToPlace (fun _ _ => 5000) [⟨37.5, 127.0⟩] ["A"]
        ⟨37.56, 126.97⟩ [none] [0]).accessibilityScore = 10 ∧
    (calculateTransitToPlace (fun _ _ => 5000) [⟨37.5, 127.0⟩] ["A"]
        ⟨37.56, 126.97⟩ [none] [1/2]).accessibilityScore = 8 := by
  have h0 : mathRound (15 + (0 : ℚ) * 20) = 15 := by
    unfold mathRound; norm_num
  have h12 : mathRound (15 + (1/2 : ℚ) * 20) = 25 := by
    unfold mathRound; norm_num
  have havg0 : averageTransitMinutes [900] = 15 := by
    unfold averageTransitMinutes mathRound; norm_num
  have havg12 : averageTransitMinutes [1500] = 25 := by
    unfold averageTransitMinutes mathRound; norm_num
  refine ⟨⟨?_, ?_⟩, ?_, ?_⟩ <;>
    simp only [calculateTransitToPlace, buildTransitLeg, List.zip_cons_cons,
      List.zip_nil_right, List.zip_nil_left, List.map_cons, List.map_nil,
      h0, h12]
  · norm_num
  · norm_num
  · norm_num
    rw [havg0]
    decide
  · norm_num
    rw [havg12]
    decide

/-! ### Place merging -/

theorem mergePlaceSources_nil (d : CoordinateDto → CoordinateDto → ℚ)
    (p : List PlaceDto) : mergePlaceSources d p [] = p := rfl

theorem mergePlaceSources_cons (d : CoordinateDto → CoordinateDto → ℚ)
    (p : List PlaceDto) (n : PlaceDto) (ns : List PlaceDto) :
    mergePlaceSources d p (n :: ns) =
      if (p.any fun e => isPlaceMatch d e n) = true then mergePlaceSources d p ns
      else mergePlaceSources d (p ++ [n]) ns := by
  unfold mergePlaceSources
  rw [List.foldl_cons]
  by_cases h : (p.any fun e => isPlaceMatch d e n) = true
  · simp only [if_pos h]
  · simp only [if_neg h]

theorem mergePlaceSources_append_exists (d : CoordinateDto → CoordinateDto → ℚ) :
    ∀ (s p : List PlaceDto), ∃ t, mergePlaceSources d p s = p ++ t := by
  intro s
  induction s with
  | nil => intro p; exact ⟨[], by simp [mergePlaceSources]⟩
  | cons n ns ih =>
      intro p
      rw [mergePlaceSources_cons]
      split_ifs with h
      · exact ih p
      · obtain ⟨t, ht⟩ := ih (p ++ [n])
        exact ⟨[n] ++ t, by rw [ht, List.append_assoc]⟩

/-- C4: the merger returns all of `primary` in order (it only ever appends),
drops a secondary place exactly when some place already accumulated matches
it, and a match is exactly the conjunction of name similarity above 0.7 and
distance below 100 m — both conditions required, with the primary-side record
kept unchanged. -/
theorem c4_mergePlaceSources_spec :
    (∀ (d : CoordinateDto → CoordinateDto → ℚ) (p s : List PlaceDto),
        ∃ t, mergePlaceSources d p s = p ++ t) ∧
    (∀ (d : CoordinateDto → CoordinateDto → ℚ) (p : List PlaceDto),
        mergePlaceSources d p [] = p) ∧
    (∀ (d : CoordinateDto → CoordinateDto → ℚ) (p : List PlaceDto)
        (n : PlaceDto) (ns : List PlaceDto),
        mergePlaceSources d p (n :: ns) =
          if (p.any fun e => isPlaceMatch d e n) = true then
            mergePlaceSources d p ns
          else mergePlaceSources d (p ++ [n]) ns) ∧
    (∀ (d : CoordinateDto → CoordinateDto → ℚ) (a b : PlaceDto),
        isPlaceMatch d a b = true ↔
          ((7 : ℚ)/10 < calculateSimilarity a.name b.name ∧
            d a.coordinates b.coordinates < 100)) := by
  refine ⟨fun d p s => mergePlaceSources_append_exists d s p,
    mergePlaceSources_nil, mergePlaceSources_cons, ?_⟩
  intro d a b
  simp [isPlaceMatch]

/-- Witness for C4 at a concrete pair of places that share a name and sit at
zero distance: both match conditions hold, so the match fires. -/
theorem c4_mergePlaceSources_spec_witness :
    isPlaceMatch (fun _ _ => 0)
      { name := "강남 카페", coordinates := ⟨37.5, 127.0⟩
        transportationAccessibility := none
        aiRecommendationScore := none, aiAnalysis := none }
      { name := "강남 카페", coordinates := ⟨37.5, 127.0⟩
        transportationAccessibility := none
        aiRecommendationScore := none, aiAnalysis := none } = true :=
  (c4_mergePlaceSources_spec.2.2.2 (fun _ _ => 0) _ _).mpr
    ⟨by rw [calculateSimilarity_self]; norm_num, by norm_num⟩

theorem mergePlaceSources_all_matched (d : CoordinateDto → CoordinateDto → ℚ) :
    ∀ (s p : List PlaceDto),
      (∀ n ∈ s, ∃ e ∈ p, isPlaceMatch d e n = true) →
      mergePlaceSources d p s = p := by
  intro s
  induction s with
  | nil => intro p _; rfl
  | cons n ns ih =>
      intro p h
      rw [mergePlaceSources_cons]
      have hn : (p.any fun e => isPlaceMatch d e n) = true := by
        rw [List.any_eq_true]
        obtain ⟨e, he, hm⟩ := h n (by simp)
        exact ⟨e, he, hm⟩
      rw [if_pos hn]
      exact ih p (fun m hm => h m (by simp [hm]))

/-- C5: merging a list with itself as the secondary list returns the list
unchanged: every secondary entry matches its identical primary counterpart
(name similarity 1 > 0.7, self-distance below 100 m — the source's haversine
gives exactly 0 there). -/
theorem c5_merge_self_id (d : CoordinateDto → CoordinateDto → ℚ)
    (L : List PlaceDto) (hd : ∀ c, d c c < 100) :
    mergePlaceSources d L L = L := by
  apply mergePlaceSources_all_matched
  intro n hn
  refine ⟨n, hn, ?_⟩
  simp only [isPlaceMatch, Bool.and_eq_true, decide_eq_true_eq]
  refine ⟨?_, hd _⟩
  rw [calculateSimilarity_self]
  norm_num

/-- A concrete place record used to instantiate the merge and recommendation
theorems. -/
def samplePlaceA : PlaceDto :=
  { name := "스타벅스 강남점"
    coordinates := ⟨37.5, 127.0⟩
    transportationAccessibility := none
    aiRecommendationScore := none
    aiAnalysis := none }

/-- Witness for C5 at a concrete list and a distance function that, like the
source's haversine, is zero on the diagonal. -/
theorem c5_merge_self_id_witness :
    mergePlaceSources (fun _ _ => 0) [samplePlaceA] [samplePlaceA] =
      [samplePlaceA] :=
  c5_merge_self_id (fun _ _ => 0) [samplePlaceA] (fun _ => by norm_num)

/-! ### Recommendation engine -/

instance : IsTotal PlaceDto accessDescOrder :=
  ⟨fun _ _ => le_total _ _⟩

instance : IsTrans PlaceDto accessDescOrder :=
  ⟨fun _ _ _ h1 h2 => le_trans h2 h1⟩

theorem generateAIRecommendations_error_length
    (jsonExtract : String → Option (List AiRecommendationRaw))
    (places : List PlaceDto) (maxResults : ℕ) :
    (generateAIRecommendations jsonExtract places maxResults
        (Except.error ())).1.length = min maxResults places.length := by
  by_cases h : places.length = 0
  · simp [generateAIRecommendations, h]
  · simp only [generateAIRecommendations, if_neg h]
    rw [List.length_take, List.length_insertionSort]

theorem generateAIRecommendations_error_sorted
    (jsonExtract : String → Option (List AiRecommendationRaw))
    (places : List PlaceDto) (maxResults : ℕ) :
    List.Sorted accessDescOrder
      (generateAIRecommendations jsonExtract places maxResults
        (Except.error ())).1 := by
  by_cases h : places.length = 0
  · simp [generateAIRecommendations, h]
  · simp only [generateAIRecommendations, if_neg h]
    exact List.Pairwise.sublist (List.take_sublist _ _)
      (List.sorted_insertionSort accessDescOrder places)

theorem generateAIRecommendations_no_entries
    (jsonExtract : String → Option (List AiRecommendationRaw))
    (places : List PlaceDto) (maxResults : ℕ) (resp : String)
    (hparse : parseAIRecommendations (jsonExtract resp) = []) :
    (generateAIRecommendations jsonExtract places maxResults
        (Except.ok resp)).1 = [] := by
  by_cases h : places.length = 0
  · simp [generateAIRecommendations, h]
  · simp [generateAIRecommendations, if_neg h, hparse]

theorem parseAIRecommendations_none : parseAIRecommendations none = [] := rfl

theorem parseAIRecommendations_no_valid_entry
    (l : List AiRecommendationRaw)
    (h : ∀ r ∈ l, r.placeIndex = none ∨ r.reason = none) :
    parseAIRecommendations (some l) = [] := by
  have hdef : parseAIRecommendations (some l) =
      List.insertionSort aiScoreDescOrder (l.filterMap (fun r =>
        match r.placeIndex, r.reason with
        | some i, some reason =>
            some { placeIndex := i
                   aiRecommendationScore := r.aiRecommendationScore
                   reason := reason }
        | _, _ => none)) := rfl
  have hfm : l.filterMap (fun r =>
      match r.placeIndex, r.reason with
      | some i, some reason =>
          some { placeIndex := i
                 aiRecommendationScore := r.aiRecommendationScore
                 reason := reason }
      | _, _ => none) = ([] : List AiRecommendation) := by
    rw [List.filterMap_eq_nil_iff]
    intro r hr
    rcases h r hr with h1 | h1
    · rw [h1]
    · rw [h1]
      cases r.placeIndex <;> rfl
  rw [hdef, hfm]
  rfl

/-- C3 counterexample to the claim as stated: a stub oracle reply with no
parseable JSON array makes `generateAIRecommendations` return the empty
list, not `min(maxResults, places.length) = 1` places. -/
theorem c3_unparseable_returns_empty :
    (generateAIRecommendations (fun _ => none) [samplePlaceA] 1
        (Except.ok "not json at all")).1.length ≠ min 1 [samplePlaceA].length := by
  rw [generateAIRecommendations_no_entries (fun _ => none) [samplePlaceA] 1
    "not json at all" rfl]
  simp

/-- C3 (amended): the recommendation step never throws; when the oracle call
itself fails, it returns exactly `min(maxResults, places.length)` places
sorted by descending effective accessibility score (default 5 when absent);
when the oracle replies but zero entries are parsed from its text, the
operation returns the empty list — and zero entries are parsed both when no
JSON array substring exists (unparseable text, `jsonExtract` gives `none`)
and when every entry of the extracted array fails the typeof filter
(non-numeric `placeIndex` or non-string `reason`). -/
theorem c3_recommendation_fallback_spec :
    (∀ (jsonExtract : String → Option (List AiRecommendationRaw))
        (places : List PlaceDto) (maxResults : ℕ),
      (generateAIRecommendations jsonExtract places maxResults
          (Except.error ())).1.length = min maxResults places.length ∧
      List.Sorted accessDescOrder
        (generateAIRecommendations jsonExtract places maxResults
          (Except.error ())).1) ∧
    (∀ (jsonExtract : String → Option (List AiRecommendationRaw))
        (places : List PlaceDto) (maxResults : ℕ) (resp : String),
      parseAIRecommendations (jsonExtract resp) = [] →
      (generateAIRecommendations jsonExtract places maxResults
          (Except.ok resp)).1 = []) ∧
    parseAIRecommendations none = [] ∧
    (∀ l : List AiRecommendationRaw,
      (∀ r ∈ l, r.placeIndex = none ∨ r.reason = none) →
      parseAIRecommendations (some l) = []) :=
  ⟨fun jx p m => ⟨generateAIRecommendations_error_length jx p m,
      generateAIRecommendations_error_sorted jx p m⟩,
    generateAIRecommendations_no_entries,
    parseAIRecommendations_none,
    parseAIRecommendations_no_valid_entry⟩

/-- Witness for C3 at a concrete extractor whose reply parses to a JSON array
whose single entry lacks a string `reason` (zero valid entries): the
operation returns the empty list. -/
theorem c3_recommendation_fallback_spec_witness :
    (generateAIRecommendations
        (fun _ => some [{ placeIndex := none
                          aiRecommendationScore := some 5
                          reason := none }])
        [samplePlaceA] 3 (Except.ok "oracle returned prose")).1 = [] :=
  c3_recommendation_fallback_spec.2.1
    (fun _ => some [{ placeIndex := none
                      aiRecommendationScore := some 5
                      reason := none }])
    [samplePlaceA] 3 "oracle returned prose"
    (c3_recommendation_fallback_spec.2.2.2 _ (fun r hr => by
      rw [List.mem_singleton] at hr
      subst hr
      exact Or.inl rfl))

/-- C9 (amended): on the oracle path the caller's `places` array is left
untouched, but on the fallback path `places.sort(...)` reorders the caller's
array in place: afterwards it is a permutation of the input sorted by
descending effective accessibility score. -/
theorem c9_input_state_spec :
    (∀ (jsonExtract : String → Option (List AiRecommendationRaw))
        (places : List PlaceDto) (maxResults : ℕ) (resp : String),
      (generateAIRecommendations jsonExtract places maxResults
          (Except.ok resp)).2 = places) ∧
    (∀ (jsonExtract : String → Option (List AiRecommendationRaw))
        (places : List PlaceDto) (maxResults : ℕ),
      ((generateAIRecommendations jsonExtract places maxResults
          (Except.error ())).2).Perm places ∧
      List.Sorted accessDescOrder
        (generateAIRecommendations jsonExtract places maxResults
          (Except.error ())).2) := by
  constructor
  · intro jx places m resp
    simp only [generateAIRecommendations]
    split <;> rfl
  · intro jx places m
    by_cases h : places.length = 0
    · have hp : places = [] := List.length_eq_zero.mp h
      subst hp
      simp [generateAIRecommendations]
    · constructor
      · simp only [generateAIRecommendations, if_neg h]
        exact List.perm_insertionSort accessDescOrder places
      · simp only [generateAIRecommendations, if_neg h]
        exact List.sorted_insertionSort accessDescOrder places

/-- A place whose transit summary scores 3. -/
def samplePlaceLow : PlaceDto :=
  { name := "한식당 A"
    coordinates := ⟨0, 0⟩
    transportationAccessibility := some
      { averageTransitTime := "40분"
        accessibilityScore := 3
        fromAddresses := []
        calculationMethod := "estimated" }
    aiRecommendationScore := none
    aiAnalysis := none }

/-- A place whose transit summary scores 8. -/
def samplePlaceHigh : PlaceDto :=
  { name := "한식당 B"
    coordinates := ⟨0, 0⟩
    transportationAccessibility := some
      { averageTransitTime := "20분"
        accessibilityScore := 8
        fromAddresses := []
        calculationMethod := "estimated" }
    aiRecommendationScore := none
    aiAnalysis := none }

/-- C9 counterexample to the claim as stated: after a fallback run the
caller's array is reordered (the higher-scoring place moved to the front), so
the operation does mutate its input. -/
theorem c9_fallback_mutates_input :
    (generateAIRecommendations (fun _ => none) [samplePlaceLow, samplePlaceHigh]
        2 (Except.error ())).2 ≠ [samplePlaceLow, samplePlaceHigh] := by
  have hlt : ¬ accessDescOrder samplePlaceLow samplePlaceHigh := by
    simp only [accessDescOrder, effectiveAccessibilityScore, samplePlaceLow,
      samplePlaceHigh]
    norm_num
  have hins : List.insertionSort accessDescOrder
      [samplePlaceLow, samplePlaceHigh] = [samplePlaceHigh, samplePlaceLow] := by
    simp only [List.insertionSort, List.orderedInsert]
    rw [if_neg hlt]
  have hs : (generateAIRecommendations (fun _ => none)
      [samplePlaceLow, samplePlaceHigh] 2 (Except.error ())).2 =
      List.insertionSort accessDescOrder [samplePlaceLow, samplePlaceHigh] := by
    simp only [generateAIRecommendations]
    rw [if_neg (by simp)]
  rw [hs, hins]
  simp [samplePlaceLow, samplePlaceHigh]

/-! ### Geocoding batch semantics -/

theorem geocodeAddresses_all_ok
    (k n : String → Except Unit GeocodingResultDto)
    (f : String → GeocodingResultDto) :
    ∀ addrs : List String,
      (∀ a ∈ addrs, geocodeOneAddress k n a = Except.ok (f a)) →
      geocodeAddresses k n addrs = Except.ok (addrs.map f) := by
  intro addrs
  induction addrs with
  | nil => intro _; rfl
  | cons a rest ih =>
      intro h
      have ha := h a (by simp)
      simp only [geocodeAddresses, ha, ih (fun b hb => h b (by simp [hb])),
        List.map_cons]

theorem geocodeAddresses_fail_fast
    (k n : String → Except Unit GeocodingResultDto)
    (a : String) (e : String) :
    ∀ (pre post : List String),
      (∀ b ∈ pre, ∃ r, geocodeOneAddress k n b = Except.ok r) →
      geocodeOneAddress k n a = Except.error e →
      geocodeAddresses k n (pre ++ a :: post) = Except.error e := by
  intro pre
  induction pre with
  | nil =>
      intro post _ ha
      simp [geocodeAddresses, ha]
  | cons b rest ih =>
      intro post h ha
      obtain ⟨r, hr⟩ := h b (by simp)
      have hih := ih post (fun c hc => h c (by simp [hc])) ha
      rw [List.cons_append]
      simp only [geocodeAddresses, hr]
      rw [hih]

theorem geocodeAddresses_ok_iff
    (k n : String → Except Unit GeocodingResultDto) :
    ∀ addrs : List String,
      (∃ rs, geocodeAddresses k n addrs = Except.ok rs ∧
        rs.length = addrs.length) ↔
      (∀ a ∈ addrs, ∃ r, geocodeOneAddress k n a = Except.ok r) := by
  intro addrs
  induction addrs with
  | nil => simp [geocodeAddresses]
  | cons a rest ih =>
      constructor
      · rintro ⟨rs, hrs, hlen⟩
        cases hone : geocodeOneAddress k n a with
        | ok r =>
            cases hrest : geocodeAddresses k n rest with
            | ok rs' =>
                intro b hb
                rcases List.mem_cons.mp hb with hb | hb
                · exact ⟨r, by rw [hb]; exact hone⟩
                · have hlen' : rs = r :: rs' := by
                    simp [geocodeAddresses, hone, hrest] at hrs
                    exact hrs.symm
                  refine (ih.mp ⟨rs', hrest, ?_⟩) b hb
                  rw [hlen'] at hlen
                  simpa using hlen
            | error e =>
                exfalso
                simp [geocodeAddresses, hone, hrest] at hrs
        | error e =>
            exfalso
            simp [geocodeAddresses, hone] at hrs
      · intro h
        obtain ⟨r, hr⟩ := h a (by simp)
        obtain ⟨rs', hrs', hlen'⟩ := ih.mpr (fun b hb => h b (by simp [hb]))
        exact ⟨r :: rs', by simp [geocodeAddresses, hr, hrs'], by simp [hlen']⟩

theorem geocodeOneAddress_ok_iff
    (k n : String → Except Unit GeocodingResultDto) (a : String) :
    (∃ r, geocodeOneAddress k n a = Except.ok r) ↔
      ((∃ r, k a = Except.ok r) ∨ (∃ r, n a = Except.ok r)) := by
  unfold geocodeOneAddress
  cases hk : k a with
  | ok r => simp
  | error _ =>
      cases hn : n a with
      | ok r => simp
      | error _ => simp

theorem geocodeOneAddress_error_message
    (k n : String → Except Unit GeocodingResultDto) (a : String) (e : String)
    (h : geocodeOneAddress k n a = Except.error e) :
    e = "Unable to geocode address: " ++ a := by
  unfold geocodeOneAddress at h
  cases hk : k a with
  | ok r => rw [hk] at h; exact absurd h (by simp)
  | error _ =>
      rw [hk] at h
      cases hn : n a with
      | ok r => rw [hn] at h; exact absurd h (by simp)
      | error _ =>
          rw [hn] at h
          exact (Except.error.injEq _ _).mp h.symm

/-- C7: batch geocoding walks the addresses sequentially; per address it
tries the primary provider and on any failure the secondary; it returns one
result per address, in input order, exactly when every address resolves via
some provider, and it fails with the exhausted-geocoding error of the first
address for which both providers fail, regardless of the addresses after
it. -/
theorem c7_geocodeAddresses_spec :
    (∀ (k n : String → Except Unit GeocodingResultDto)
        (f : String → GeocodingResultDto) (addrs : List String),
      (∀ a ∈ addrs, geocodeOneAddress k n a = Except.ok (f a)) →
      geocodeAddresses k n addrs = Except.ok (addrs.map f)) ∧
    (∀ (k n : String → Except Unit GeocodingResultDto) (a : String)
        (e : String) (pre post : List String),
      (∀ b ∈ pre, ∃ r, geocodeOneAddress k n b = Except.ok r) →
      geocodeOneAddress k n a = Except.error e →
      geocodeAddresses k n (pre ++ a :: post) = Except.error e) ∧
    (∀ (k n : String → Except Unit GeocodingResultDto) (addrs : List String),
      (∃ rs, geocodeAddresses k n addrs = Except.ok rs ∧
        rs.length = addrs.length) ↔
      (∀ a ∈ addrs, ∃ r, geocodeOneAddress k n a = Except.ok r)) ∧
    (∀ (k n : String → Except Unit GeocodingResultDto) (a : String),
      (∃ r, geocodeOneAddress k n a = Except.ok r) ↔
        ((∃ r, k a = Except.ok r) ∨ (∃ r, n a = Except.ok r))) ∧
    (∀ (k n : String → Except Unit GeocodingResultDto) (a e : String),
      geocodeOneAddress k n a = Except.error e →
      e = "Unable to geocode address: " ++ a) :=
  ⟨fun k n f addrs => geocodeAddresses_all_ok k n f addrs,
    fun k n a e pre post => geocodeAddresses_fail_fast k n a e pre post,
    geocodeAddresses_ok_iff, geocodeOneAddress_ok_iff,
    geocodeOneAddress_error_message⟩

/-- A concrete geocoding result for the C7 witness. -/
def sampleGeo : GeocodingResultDto :=
  { originalAddress := "서울시 강남구"
    formattedAddress := "서울 강남구"
    coordinates := ⟨37.5, 127.0⟩
    accuracy := "ROAD_ADDRESS" }

/-- Witness for C7: with a primary provider that fails on address "B" and a
secondary that always fails, the batch over ["A", "B", "C"] fails fast with
the exhausted error for "B". -/
theorem c7_geocodeAddresses_spec_witness :
    geocodeAddresses
        (fun a => if a = "B" then Except.error () else Except.ok sampleGeo)
        (fun _ => Except.error ()) ["A", "B", "C"] =
      Except.error ("Unable to geocode address: " ++ "B") := by
  have h := c7_geocodeAddresses_spec.2.1
    (fun a => if a = "B" then Except.error () else Except.ok sampleGeo)
    (fun _ => Except.error ()) "B" ("Unable to geocode address: " ++ "B")
    ["A"] ["C"]
  refine h ?_ ?_
  · intro b hb
    have hbA : b = "A" := by simpa using hb
    subst hbA
    exact ⟨sampleGeo, rfl⟩
  · rfl

end Hackerton
